import Mathlib

/-!
# Verification of gexec/session.go

A shallow embedding of the `gexec` session core: `Start`, the background
watcher `monitorForExit`, and the exit-code query `getExitCode`, together
with models of the external collaborators the code uses (Go interface
values and `reflect.Value.IsNil`, `io.MultiWriter`, the `gbytes.Buffer`
capture buffer, `exec.Cmd` and `syscall.WaitStatus`, and `sync.Mutex`).

Bytes are modelled as `Nat`, byte slices as `List Nat`, and machine panics
as explicit error outcomes.
-/

namespace Gexec

/-- Modelled from the spec: an error value returned by the external
process-description collaborator (spec section 6), e.g. the error of a
failed start attempt.  Only its identity matters to the core. -/
structure GoError where
  code : Nat
deriving DecidableEq

/-- The dynamic kind of a Go value stored in a non-nil interface value.
`reflect.Value.IsNil` is legal only on the nilable kinds (chan, func,
interface, map, pointer, slice); on any other kind it panics. -/
inductive GoKind where
  | ptrK
  | chanK
  | funcK
  | interfaceK
  | mapK
  | sliceK
  | structK
  | otherK
deriving DecidableEq

/-- Whether `reflect.Value.IsNil` is legal on this kind. -/
def GoKind.nilable : GoKind → Bool
  | .ptrK => true
  | .chanK => true
  | .funcK => true
  | .interfaceK => true
  | .mapK => true
  | .sliceK => true
  | .structK => false
  | .otherK => false

/-- A non-nil Go interface value: its dynamic kind, and whether the
underlying value is nil (a typed nil; meaningful for nilable kinds). -/
structure IfaceVal where
  kind : GoKind
  valIsNil : Bool
deriving DecidableEq

/-- A Go `io.Writer` interface value as passed to `Start`:
`none` is the untyped nil interface, `some v` a non-nil interface value
(which may still hold a typed nil). -/
def GoWriter : Type := Option IfaceVal

/-- The guard `outWriter != nil && !reflect.ValueOf(outWriter).IsNil()`
from Start (session.go lines 63 and 67).  Returns whether a fan-out
writer is installed; `Except.error ()` is the reflect panic raised by
`IsNil` on a non-nilable kind. -/
def useSink : GoWriter → Except Unit Bool
  | none => Except.ok false
  | some v => if v.kind.nilable then Except.ok (!v.valIsNil) else Except.error ()

/-- The effective destination wired to a standard stream of the command:
the capture buffer alone, or `io.MultiWriter(buffer, sink)`. -/
inductive Dest where
  | bufferOnly
  | fanOut
deriving DecidableEq

/-- Modelled from the spec: the Linux `syscall.WaitStatus` convention used
by the watcher — a raw wait status word; the low 7 bits are zero exactly
when the process exited normally, and `ExitStatus()` returns bits 8..15
for a normal exit and -1 otherwise (e.g. for a signal-killed process). -/
structure WaitStatus where
  status : Nat
deriving DecidableEq

/-- `syscall.WaitStatus.Exited()`: the low 7 bits of the status are zero. -/
def WaitStatus.exited (w : WaitStatus) : Bool :=
  w.status % 128 == 0

/-- `syscall.WaitStatus.ExitStatus()`: the exit code for a normal exit,
-1 otherwise. -/
def WaitStatus.exitStatus (w : WaitStatus) : Int :=
  if w.exited then ((w.status / 256) % 256 : Nat) else -1

/-- Modelled from the spec: the external process-description collaborator
(`exec.Cmd`, spec section 6).  `stdout`/`stderr` are the settable stream
destinations (unset before Start wires them); `startResult` is the outcome
of its start operation (`some e` = the start attempt fails with `e`);
`waitResult` is the process state its wait operation records (`none` = the
wait call fails, e.g. the process was already reaped, so no process state
is recorded and the started-process-state accessor holds nothing). -/
structure Cmd where
  stdout : Option Dest
  stderr : Option Dest
  startResult : Option GoError
  waitResult : Option WaitStatus
deriving DecidableEq

/-- The Session structure (session.go lines 16-27): the wrapped command,
the two capture buffers (byte logs) and the lock-guarded exit-code store,
initialised to the sentinel -1. -/
structure Session where
  command : Cmd
  out : List Nat
  err : List Nat
  exitCode : Int
deriving DecidableEq

/-- Events emitted by Start, in program order: wiring the effective
destinations to the command's standard streams, the start attempt, and
spawning the watcher goroutine. -/
inductive StartEvent where
  | attachStdout (d : Dest)
  | attachStderr (d : Dest)
  | cmdStart
  | spawnWatcher
deriving DecidableEq

/-- What Start returns (and does): the session, the error value returned
alongside it, whether the watcher goroutine was launched, and the ordered
event trace of its side effects. -/
structure StartResult where
  session : Session
  startErr : Option GoError
  watcherLaunched : Bool
  events : List StartEvent
deriving DecidableEq

/-- `Start` (session.go lines 50-80): builds the session with fresh empty
capture buffers and sentinel exit code, picks the effective stdout/stderr
destinations (a fan-out writer exactly when the corresponding writer is
non-nil and not a typed nil — the `reflect` check may panic, modelled as
`Except.error ()`), attaches them to the command, attempts to start it,
and launches the watcher only when the start attempt succeeded. -/
def Start (command : Cmd) (outWriter errWriter : GoWriter) :
    Except Unit StartResult :=
  match useSink outWriter with
  | Except.error _ => Except.error ()
  | Except.ok useOut =>
    match useSink errWriter with
    | Except.error _ => Except.error ()
    | Except.ok useErr =>
      let commandOut : Dest := if useOut then Dest.fanOut else Dest.bufferOnly
      let commandErr : Dest := if useErr then Dest.fanOut else Dest.bufferOnly
      let command1 : Cmd :=
        { command with stdout := some commandOut, stderr := some commandErr }
      let session : Session :=
        { command := command1, out := [], err := [], exitCode := -1 }
      let launched := command1.startResult.isNone
      Except.ok
        { session := session
          startErr := command1.startResult
          watcherLaunched := launched
          events :=
            [StartEvent.attachStdout commandOut,
             StartEvent.attachStderr commandErr,
             StartEvent.cmdStart] ++
            (if launched then [StartEvent.spawnWatcher] else []) }

/-! ## The lock-level machine

The watcher and the query both operate on the exit-code store under the
session's mutex.  We compile each of them to a straight-line list of
micro-operations and give those an operational semantics. -/

/-- Micro-operations: blocking on the OS wait, acquiring/releasing the
mutex, reading/writing the exit-code store, and a runtime panic. -/
inductive MicroOp where
  | wait
  | acquire
  | release
  | readExit
  | writeExit (v : Int)
  | panicOp
deriving DecidableEq

/-- `monitorForExit` (session.go lines 82-87): wait for the process, take
the lock, store `ProcessState.Sys().(syscall.WaitStatus).ExitStatus()`,
release the lock.  The wait error is discarded; when the wait failed and
no process state was recorded, the unconditional dereference of the
process state panics (after the lock was taken, before any store write). -/
def monitorForExit (s : Session) : List MicroOp :=
  match s.command.waitResult with
  | none => [MicroOp.wait, MicroOp.acquire, MicroOp.panicOp]
  | some ws =>
      [MicroOp.wait, MicroOp.acquire,
       MicroOp.writeExit ws.exitStatus, MicroOp.release]

/-- `getExitCode` (session.go lines 89-94): take the lock, read the
exit-code store, release the lock (by deferred unlock). -/
def getExitCode : List MicroOp :=
  [MicroOp.acquire, MicroOp.readExit, MicroOp.release]

/-- Machine state for the micro-operations: whether the session's mutex
is held, plus the session itself (the store lives in `sess.exitCode`). -/
structure MState where
  locked : Bool
  sess : Session
deriving DecidableEq

/-- Outcome of running a straight line of micro-operations: blocked on
the mutex, died in a panic, or ran to completion with a final state and
the values returned by the store reads, in order. -/
inductive RunResult where
  | blocked
  | panicked
  | done (st : MState) (reads : List Int)
deriving DecidableEq

/-- Prepend a read value to the result of the remainder of a run. -/
def RunResult.addRead (v : Int) : RunResult → RunResult
  | .done st rs => .done st (v :: rs)
  | r => r

/-- Run a straight-line micro-operation program.  `wait` is the OS-level
process wait (it blocks the running task but touches no session state);
`acquire` blocks while the mutex is held by someone else. -/
def runMicro (st : MState) : List MicroOp → RunResult
  | [] => RunResult.done st []
  | MicroOp.wait :: rest => runMicro st rest
  | MicroOp.acquire :: rest =>
      if st.locked then RunResult.blocked
      else runMicro { st with locked := true } rest
  | MicroOp.release :: rest => runMicro { st with locked := false } rest
  | MicroOp.readExit :: rest =>
      RunResult.addRead st.sess.exitCode (runMicro st rest)
  | MicroOp.writeExit v :: rest =>
      runMicro { st with sess := { st.sess with exitCode := v } } rest
  | MicroOp.panicOp :: _ => RunResult.panicked

/-- Does a micro-operation touch the exit-code store? -/
def MicroOp.touchesStore : MicroOp → Bool
  | .readExit => true
  | .writeExit _ => true
  | _ => false

/-- Is a micro-operation a store write? -/
def MicroOp.isWriteOp : MicroOp → Bool
  | .writeExit _ => true
  | _ => false

/-- Lock discipline of a straight-line program: every access to the
exit-code store happens while the mutex is held (`d` counts currently
held acquisitions). -/
def disciplined (d : Nat) : List MicroOp → Bool
  | [] => true
  | MicroOp.acquire :: rest => disciplined (d + 1) rest
  | MicroOp.release :: rest => decide (0 < d) && disciplined (d - 1) rest
  | op :: rest =>
      (!op.touchesStore || decide (0 < d)) && disciplined d rest

/-! ## Serialized histories of the exit-code store

Every access to the store is a lock-bracketed critical section, so a
concurrent execution of the watcher and any number of queries serializes
into a sequence of atomic store events: the watcher's single write and
the queries' reads. -/

/-- A critical-section event on the exit-code store. -/
inductive CSEvent where
  | csWrite (c : Int)
  | csRead
deriving DecidableEq

/-- Is a critical-section event a write? -/
def CSEvent.isCsWrite : CSEvent → Bool
  | .csWrite _ => true
  | .csRead => false

/-- The store value after a serialized history, starting from `v`:
writes replace the value, reads leave it unchanged.  The value returned
by a query inserted after history `es` is `storeAfter v es`. -/
def storeAfter (v : Int) : List CSEvent → Int
  | [] => v
  | CSEvent.csWrite c :: es => storeAfter c es
  | CSEvent.csRead :: es => storeAfter v es

/-! ## The fan-out destination

When a sink is configured, the effective destination is
`io.MultiWriter(captureBuffer, sink)`: each chunk is written to the
writers in that order; a sink error or short write fails the whole
write.  The capture buffer is the `gbytes.Buffer` collaborator. -/

/-- State of one captured stream: the capture buffer's contents and the
bytes the external sink has observed. -/
structure FanState where
  outBuf : List Nat
  sink : List Nat
deriving DecidableEq

/-- A delivery of bytes to one of the two destinations of the fan-out
writer. -/
inductive WriteEvent where
  | toBuffer (p : List Nat)
  | toSink (p : List Nat)
deriving DecidableEq

/-- Modelled from the spec: the external sink's write operation (the
standard writable-stream contract, spec section 6) — given a chunk it
reports how many leading bytes it accepted and whether it succeeded. -/
def SinkFun : Type := List Nat → Nat × Bool

/-- One write of chunk `p` through `io.MultiWriter(buffer, sink)`: the
capture buffer (a `gbytes.Buffer`, which appends every chunk in full)
is written first, then the sink; the write succeeds only if the sink
succeeded and accepted the whole chunk (otherwise `io.ErrShortWrite`).
Returns the new state, the deliveries in order, and success. -/
def fanOutWrite (sinkW : SinkFun) (st : FanState) (p : List Nat) :
    FanState × List WriteEvent × Bool :=
  let st1 : FanState := { st with outBuf := st.outBuf ++ p }
  let n := (sinkW p).1
  let ok := (sinkW p).2
  let st2 : FanState := { st1 with sink := st1.sink ++ p.take n }
  (st2, [WriteEvent.toBuffer p, WriteEvent.toSink (p.take n)],
    ok && (n == p.length))

/-- The stream pump: deliver the process's output chunks to the fan-out
destination one by one, stopping at the first failed write (as `io.Copy`
does when the destination's write fails). -/
def pump (sinkW : SinkFun) (st : FanState) :
    List (List Nat) → FanState × List WriteEvent
  | [] => (st, [])
  | p :: ps =>
    match fanOutWrite sinkW st p with
    | (st1, evs, ok) =>
      if ok then
        match pump sinkW st1 ps with
        | (st2, evs2) => (st2, evs ++ evs2)
      else (st1, evs)

/-! ## Helper lemmas -/

/-- A history whose writes all write `code` keeps the store at `code`
once it is there. -/
lemma storeAfter_const (code : Int) :
    ∀ es : List CSEvent,
      (∀ e ∈ es, e = CSEvent.csRead ∨ e = CSEvent.csWrite code) →
      storeAfter code es = code := by
  intro es
  induction es with
  | nil => intro _; rfl
  | cons e es ih =>
    intro h
    have htail : ∀ e ∈ es, e = CSEvent.csRead ∨ e = CSEvent.csWrite code :=
      fun e he => h e (List.mem_cons_of_mem _ he)
    rcases h e (List.mem_cons_self _ _) with he | he
    · subst he
      simpa [storeAfter] using ih htail
    · subst he
      simpa [storeAfter] using ih htail

/-- Starting from the sentinel, a history whose writes all write `code`
yields `code` if any write occurred and the sentinel otherwise. -/
lemma storeAfter_of_valid (code : Int) :
    ∀ es : List CSEvent,
      (∀ e ∈ es, e = CSEvent.csRead ∨ e = CSEvent.csWrite code) →
      storeAfter (-1) es = if es.any CSEvent.isCsWrite then code else -1 := by
  intro es
  induction es with
  | nil => intro _; rfl
  | cons e es ih =>
    intro h
    have htail : ∀ e ∈ es, e = CSEvent.csRead ∨ e = CSEvent.csWrite code :=
      fun e he => h e (List.mem_cons_of_mem _ he)
    rcases h e (List.mem_cons_self _ _) with he | he
    · subst he
      simpa [storeAfter, CSEvent.isCsWrite] using ih htail
    · subst he
      simp [storeAfter, CSEvent.isCsWrite, storeAfter_const code es htail]

/-- Reads do not change the store. -/
lemma storeAfter_reads (v : Int) :
    ∀ es : List CSEvent, (∀ e ∈ es, e = CSEvent.csRead) →
      storeAfter v es = v := by
  intro es
  induction es with
  | nil => intro _; rfl
  | cons e es ih =>
    intro h
    have he := h e (List.mem_cons_self _ _)
    subst he
    simpa [storeAfter] using ih fun e hme => h e (List.mem_cons_of_mem _ hme)

/-- `storeAfter` over an appended history. -/
lemma storeAfter_append (es₁ es₂ : List CSEvent) :
    ∀ v : Int, storeAfter v (es₁ ++ es₂) = storeAfter (storeAfter v es₁) es₂ := by
  induction es₁ with
  | nil => intro v; rfl
  | cons e es ih =>
    intro v
    cases e with
    | csWrite c => simpa [storeAfter] using ih c
    | csRead => simpa [storeAfter] using ih v

/-- Shape of a successful `Start` call: the explicit result record. -/
lemma Start_eq (cmd : Cmd) (ow ew : GoWriter) (a b : Bool)
    (how : useSink ow = Except.ok a) (hew : useSink ew = Except.ok b) :
    Start cmd ow ew = Except.ok
      { session :=
          { command :=
              { cmd with
                  stdout := some (if a then Dest.fanOut else Dest.bufferOnly)
                  stderr := some (if b then Dest.fanOut else Dest.bufferOnly) }
            out := []
            err := []
            exitCode := -1 }
        startErr := cmd.startResult
        watcherLaunched := cmd.startResult.isNone
        events :=
          [StartEvent.attachStdout (if a then Dest.fanOut else Dest.bufferOnly),
           StartEvent.attachStderr (if b then Dest.fanOut else Dest.bufferOnly),
           StartEvent.cmdStart] ++
          (if cmd.startResult.isNone then [StartEvent.spawnWatcher] else []) } := by
  simp [Start, how, hew]

/-- A fully accepting sink: after pumping any chunk list, the capture
buffer and the sink both hold the concatenation of the chunks, and each
chunk is delivered to the buffer and then to the sink, chunk by chunk. -/
lemma pump_of_full_sink (sinkW : SinkFun)
    (hsink : ∀ p, sinkW p = (p.length, true)) :
    ∀ (chunks : List (List Nat)) (st : FanState),
      pump sinkW st chunks =
        ({ outBuf := st.outBuf ++ chunks.flatten, sink := st.sink ++ chunks.flatten },
         (chunks.map fun p =>
           [WriteEvent.toBuffer p, WriteEvent.toSink p]).flatten) := by
  intro chunks
  induction chunks with
  | nil => intro st; simp [pump]
  | cons p ps ih =>
    intro st
    simp [pump, fanOutWrite, hsink p, ih, List.append_assoc]

/-! ## Concrete fixtures used by the witnesses -/

/-- A raw wait status for a normal exit with code 1 (status word 0x100). -/
def wsExit1 : WaitStatus := { status := 256 }

/-- A command whose start succeeds and whose wait records `wsExit1`. -/
def cmdOk : Cmd :=
  { stdout := none, stderr := none, startResult := none,
    waitResult := some wsExit1 }

/-- The result of `Start cmdOk none none`. -/
def rOk : StartResult :=
  { session :=
      { command :=
          { stdout := some Dest.bufferOnly, stderr := some Dest.bufferOnly,
            startResult := none, waitResult := some wsExit1 }
        out := []
        err := []
        exitCode := -1 }
    startErr := none
    watcherLaunched := true
    events :=
      [StartEvent.attachStdout Dest.bufferOnly,
       StartEvent.attachStderr Dest.bufferOnly,
       StartEvent.cmdStart, StartEvent.spawnWatcher] }

/-- A start error (e.g. executable not found). -/
def errNoExec : GoError := { code := 2 }

/-- A command whose start attempt fails with `errNoExec`. -/
def cmdFail : Cmd :=
  { stdout := none, stderr := none, startResult := some errNoExec,
    waitResult := none }

/-- The result of `Start cmdFail none none`. -/
def rFail : StartResult :=
  { session :=
      { command :=
          { stdout := some Dest.bufferOnly, stderr := some Dest.bufferOnly,
            startResult := some errNoExec, waitResult := none }
        out := []
        err := []
        exitCode := -1 }
    startErr := some errNoExec
    watcherLaunched := false
    events :=
      [StartEvent.attachStdout Dest.bufferOnly,
       StartEvent.attachStderr Dest.bufferOnly,
       StartEvent.cmdStart] }

/-! ## Claims -/

/-- C1: for every Session returned by a successful Start, the exit-code
store starts at the sentinel -1 and the watcher goroutine is launched;
in any serialized history of lock-protected store accesses whose writes
are the watcher's (writing the recorded exit status), a query returns -1
before the watcher's write has occurred and the real exit code forever
after; the watcher's program performs exactly one store write (of the
recorded exit status), the query performs none, and both programs touch
the store only while holding the lock. -/
theorem exit_code_store_lifecycle
    (cmd : Cmd) (ow ew : GoWriter) (a b : Bool) (r : StartResult)
    (ws : WaitStatus)
    (how : useSink ow = Except.ok a) (hew : useSink ew = Except.ok b)
    (hstart : Start cmd ow ew = Except.ok r)
    (hok : r.startErr = none)
    (hwait : r.session.command.waitResult = some ws)
    (es : List CSEvent)
    (hvalid : ∀ e ∈ es, e = CSEvent.csRead ∨ e = CSEvent.csWrite ws.exitStatus) :
    r.session.exitCode = -1
    ∧ r.watcherLaunched = true
    ∧ storeAfter r.session.exitCode es =
        (if es.any CSEvent.isCsWrite then ws.exitStatus else -1)
    ∧ (monitorForExit r.session).countP MicroOp.isWriteOp = 1
    ∧ MicroOp.writeExit ws.exitStatus ∈ monitorForExit r.session
    ∧ (∀ v, MicroOp.writeExit v ∉ getExitCode)
    ∧ disciplined 0 (monitorForExit r.session) = true
    ∧ disciplined 0 getExitCode = true := by
  rw [Start_eq cmd ow ew a b how hew] at hstart
  injection hstart with h
  subst h
  have hwr : cmd.waitResult = some ws := by simpa using hwait
  refine ⟨rfl, by simpa using hok, ?_, ?_, ?_, ?_, ?_, by decide⟩
  · exact storeAfter_of_valid _ es hvalid
  · simp [monitorForExit, hwr, List.countP_cons, MicroOp.isWriteOp]
  · simp [monitorForExit, hwr]
  · intro v
    simp [getExitCode]
  · simp [monitorForExit, hwr, disciplined, MicroOp.touchesStore]

/-- Witness for C1 at a concrete successfully started session whose
process exited with code 1, against the history read-write-read. -/
theorem exit_code_store_lifecycle_witness :
    rOk.session.exitCode = -1
    ∧ rOk.watcherLaunched = true
    ∧ storeAfter rOk.session.exitCode
        [CSEvent.csRead, CSEvent.csWrite wsExit1.exitStatus, CSEvent.csRead] =
        (if ([CSEvent.csRead, CSEvent.csWrite wsExit1.exitStatus,
              CSEvent.csRead].any CSEvent.isCsWrite)
         then wsExit1.exitStatus else -1)
    ∧ (monitorForExit rOk.session).countP MicroOp.isWriteOp = 1
    ∧ MicroOp.writeExit wsExit1.exitStatus ∈ monitorForExit rOk.session
    ∧ (∀ v, MicroOp.writeExit v ∉ getExitCode)
    ∧ disciplined 0 (monitorForExit rOk.session) = true
    ∧ disciplined 0 getExitCode = true :=
  exit_code_store_lifecycle cmdOk none none false false rOk wsExit1
    rfl rfl rfl (by decide) (by decide)
    [CSEvent.csRead, CSEvent.csWrite wsExit1.exitStatus, CSEvent.csRead]
    (by decide)

/-- C2: when the underlying command's start attempt fails, Start returns
that error synchronously alongside the (partially initialized) session,
no watcher goroutine is spawned, and with no writer ever running, any
history of queries returns the sentinel -1 forever. -/
theorem start_failure_is_synchronous
    (cmd : Cmd) (ow ew : GoWriter) (a b : Bool) (e : GoError)
    (r : StartResult)
    (how : useSink ow = Except.ok a) (hew : useSink ew = Except.ok b)
    (hfail : cmd.startResult = some e)
    (hstart : Start cmd ow ew = Except.ok r) :
    r.startErr = some e
    ∧ r.watcherLaunched = false
    ∧ StartEvent.spawnWatcher ∉ r.events
    ∧ r.session.exitCode = -1
    ∧ ∀ es : List CSEvent, (∀ ev ∈ es, ev = CSEvent.csRead) →
        storeAfter r.session.exitCode es = -1 := by
  rw [Start_eq cmd ow ew a b how hew] at hstart
  injection hstart with h
  subst h
  refine ⟨by simp [hfail], by simp [hfail], ?_, rfl, ?_⟩
  · simp [hfail]
  · intro es hes
    exact storeAfter_reads _ es hes

/-- Witness for C2 at a concrete command whose start fails. -/
theorem start_failure_is_synchronous_witness :
    rFail.startErr = some errNoExec
    ∧ rFail.watcherLaunched = false
    ∧ StartEvent.spawnWatcher ∉ rFail.events
    ∧ rFail.session.exitCode = -1
    ∧ ∀ es : List CSEvent, (∀ ev ∈ es, ev = CSEvent.csRead) →
        storeAfter rFail.session.exitCode es = -1 :=
  start_failure_is_synchronous cmdFail none none false false errNoExec rFail
    rfl rfl (by decide) rfl

/-- A non-nil, non-typed-nil writer (a non-nil pointer). -/
def wOut : GoWriter := some { kind := GoKind.ptrK, valIsNil := false }

/-- The result of `Start cmdOk wOut wOut`. -/
def rFan : StartResult :=
  { session :=
      { command :=
          { stdout := some Dest.fanOut, stderr := some Dest.fanOut,
            startResult := none, waitResult := some wsExit1 }
        out := []
        err := []
        exitCode := -1 }
    startErr := none
    watcherLaunched := true
    events :=
      [StartEvent.attachStdout Dest.fanOut,
       StartEvent.attachStderr Dest.fanOut,
       StartEvent.cmdStart, StartEvent.spawnWatcher] }

/-- A sink that accepts every chunk in full. -/
def fullSink : SinkFun := fun p => (p.length, true)

/-- C3: a Session started with a present, non-nil outWriter (resp.
errWriter) gets a fan-out destination on the corresponding stream; for a
sink that accepts its writes, every chunk is delivered to the capture
buffer first and then to the sink, so the sink observes exactly the byte
sequence appended to the capture buffer, in order. -/
theorem fan_out_duplicates_output
    (cmd : Cmd) (ow ew : GoWriter) (r : StartResult) (sinkW : SinkFun)
    (how : useSink ow = Except.ok true) (hew : useSink ew = Except.ok true)
    (hstart : Start cmd ow ew = Except.ok r)
    (hsink : ∀ p, sinkW p = (p.length, true)) :
    r.session.command.stdout = some Dest.fanOut
    ∧ r.session.command.stderr = some Dest.fanOut
    ∧ ∀ chunks : List (List Nat),
        (pump sinkW { outBuf := [], sink := [] } chunks).1.outBuf =
          (pump sinkW { outBuf := [], sink := [] } chunks).1.sink
        ∧ (pump sinkW { outBuf := [], sink := [] } chunks).1.outBuf =
            chunks.flatten
        ∧ (pump sinkW { outBuf := [], sink := [] } chunks).2 =
            (chunks.map fun p =>
              [WriteEvent.toBuffer p, WriteEvent.toSink p]).flatten := by
  rw [Start_eq cmd ow ew true true how hew] at hstart
  injection hstart with h
  subst h
  refine ⟨rfl, rfl, ?_⟩
  intro chunks
  rw [pump_of_full_sink sinkW hsink chunks { outBuf := [], sink := [] }]
  simp

/-- Witness for C3: both sinks present, pumping the single chunk "foo". -/
theorem fan_out_duplicates_output_witness :
    rFan.session.command.stdout = some Dest.fanOut
    ∧ rFan.session.command.stderr = some Dest.fanOut
    ∧ ((pump fullSink { outBuf := [], sink := [] } [[102, 111, 111]]).1.outBuf =
         (pump fullSink { outBuf := [], sink := [] } [[102, 111, 111]]).1.sink
      ∧ (pump fullSink { outBuf := [], sink := [] } [[102, 111, 111]]).1.outBuf =
          [[102, 111, 111]].flatten
      ∧ (pump fullSink { outBuf := [], sink := [] } [[102, 111, 111]]).2 =
          ([[102, 111, 111]].map fun p =>
            [WriteEvent.toBuffer p, WriteEvent.toSink p]).flatten) :=
  ⟨(fan_out_duplicates_output cmdOk wOut wOut rFan fullSink
      rfl rfl rfl (fun _ => rfl)).1,
   (fan_out_duplicates_output cmdOk wOut wOut rFan fullSink
      rfl rfl rfl (fun _ => rfl)).2.1,
   (fan_out_duplicates_output cmdOk wOut wOut rFan fullSink
      rfl rfl rfl (fun _ => rfl)).2.2 [[102, 111, 111]]⟩

/-- C5: Start attaches the effective stdout and stderr destinations to
the command strictly before the start attempt: its event trace is the
two attach events, then the start attempt, and the only event that can
follow the start attempt is spawning the watcher. -/
theorem wiring_precedes_start_attempt
    (cmd : Cmd) (ow ew : GoWriter) (a b : Bool) (r : StartResult)
    (how : useSink ow = Except.ok a) (hew : useSink ew = Except.ok b)
    (hstart : Start cmd ow ew = Except.ok r) :
    r.events =
      [StartEvent.attachStdout (if a then Dest.fanOut else Dest.bufferOnly),
       StartEvent.attachStderr (if b then Dest.fanOut else Dest.bufferOnly),
       StartEvent.cmdStart] ++
      (if r.watcherLaunched then [StartEvent.spawnWatcher] else [])
    ∧ r.session.command.stdout =
        some (if a then Dest.fanOut else Dest.bufferOnly)
    ∧ r.session.command.stderr =
        some (if b then Dest.fanOut else Dest.bufferOnly)
    ∧ StartEvent.cmdStart ∉
        (if r.watcherLaunched then [StartEvent.spawnWatcher]
         else ([] : List StartEvent)) := by
  rw [Start_eq cmd ow ew a b how hew] at hstart
  injection hstart with h
  subst h
  refine ⟨rfl, rfl, rfl, ?_⟩
  cases cmd.startResult <;> simp

/-- Witness for C5 at a concrete successful Start with absent writers. -/
theorem wiring_precedes_start_attempt_witness :
    rOk.events =
      [StartEvent.attachStdout Dest.bufferOnly,
       StartEvent.attachStderr Dest.bufferOnly,
       StartEvent.cmdStart] ++
      (if rOk.watcherLaunched then [StartEvent.spawnWatcher] else [])
    ∧ rOk.session.command.stdout = some Dest.bufferOnly
    ∧ rOk.session.command.stderr = some Dest.bufferOnly
    ∧ StartEvent.cmdStart ∉
        (if rOk.watcherLaunched then [StartEvent.spawnWatcher]
         else ([] : List StartEvent)) :=
  wiring_precedes_start_attempt cmdOk none none false false rOk rfl rfl rfl

/-- C6: a writer that is a non-nil interface value holding a typed nil
(of a nilable kind) behaves exactly like an absent writer: Start returns
the same result, and the corresponding stream is wired to the capture
buffer alone. -/
theorem typed_nil_writer_is_absent
    (cmd : Cmd) (ow ew : GoWriter) (k : GoKind) (hk : k.nilable = true) :
    Start cmd (some { kind := k, valIsNil := true }) ew = Start cmd none ew
    ∧ Start cmd ow (some { kind := k, valIsNil := true }) = Start cmd ow none
    ∧ ∀ r, Start cmd (some { kind := k, valIsNil := true })
             (some { kind := k, valIsNil := true }) = Except.ok r →
        r.session.command.stdout = some Dest.bufferOnly
        ∧ r.session.command.stderr = some Dest.bufferOnly := by
  have h1 : useSink (some { kind := k, valIsNil := true }) = Except.ok false := by
    simp [useSink, hk]
  refine ⟨by simp [Start, useSink, hk], by simp [Start, useSink, hk], ?_⟩
  intro r hr
  rw [Start_eq cmd _ _ false false h1 h1] at hr
  injection hr with h
  subst h
  exact ⟨rfl, rfl⟩

/-- Witness for C6 with a typed-nil pointer writer. -/
theorem typed_nil_writer_is_absent_witness :
    Start cmdOk (some { kind := GoKind.ptrK, valIsNil := true }) none =
      Start cmdOk none none
    ∧ Start cmdOk none (some { kind := GoKind.ptrK, valIsNil := true }) =
        Start cmdOk none none
    ∧ (rOk.session.command.stdout = some Dest.bufferOnly
      ∧ rOk.session.command.stderr = some Dest.bufferOnly) :=
  ⟨(typed_nil_writer_is_absent cmdOk none none GoKind.ptrK rfl).1,
   (typed_nil_writer_is_absent cmdOk none none GoKind.ptrK rfl).2.1,
   (typed_nil_writer_is_absent cmdOk none none GoKind.ptrK rfl).2.2 rOk rfl⟩

/-- C7: the exit-code query takes the lock, reads the current store
value (sentinel or real code) and releases the lock: from an unlocked
state it completes (it never performs the blocking process wait), it
returns exactly the current store value, it leaves every field of the
session and the lock unchanged, and its store access is under the lock. -/
theorem get_exit_code_is_pure_read (s : Session) :
    runMicro { locked := false, sess := s } getExitCode =
      RunResult.done { locked := false, sess := s } [s.exitCode]
    ∧ MicroOp.wait ∉ getExitCode
    ∧ disciplined 0 getExitCode = true := by
  refine ⟨?_, by decide, by decide⟩
  simp [getExitCode, runMicro, RunResult.addRead]

/-- C8: once the watcher has recorded the exit status, repeated queries
all return that value: the query right after the recording history and
any later query (after further queries) return equal results. -/
theorem exit_code_query_idempotent
    (ws : WaitStatus) (es₁ es₂ : List CSEvent)
    (h1 : ∀ e ∈ es₁, e = CSEvent.csRead ∨ e = CSEvent.csWrite ws.exitStatus)
    (hw : es₁.any CSEvent.isCsWrite = true)
    (h2 : ∀ e ∈ es₂, e = CSEvent.csRead) :
    storeAfter (-1) es₁ = ws.exitStatus
    ∧ storeAfter (-1) (es₁ ++ es₂) = ws.exitStatus
    ∧ storeAfter (-1) es₁ = storeAfter (-1) (es₁ ++ es₂) := by
  have ha : storeAfter (-1) es₁ = ws.exitStatus := by
    rw [storeAfter_of_valid ws.exitStatus es₁ h1, hw]
    rfl
  have hb : storeAfter (-1) (es₁ ++ es₂) = ws.exitStatus := by
    rw [storeAfter_append es₁ es₂ (-1), ha]
    exact storeAfter_reads _ es₂ h2
  exact ⟨ha, hb, ha.trans hb.symm⟩

/-- Witness for C8: the watcher recorded exit code 1; the next query and
a query after one more query both return 1. -/
theorem exit_code_query_idempotent_witness :
    storeAfter (-1) [CSEvent.csWrite wsExit1.exitStatus] = wsExit1.exitStatus
    ∧ storeAfter (-1)
        ([CSEvent.csWrite wsExit1.exitStatus] ++ [CSEvent.csRead]) =
        wsExit1.exitStatus
    ∧ storeAfter (-1) [CSEvent.csWrite wsExit1.exitStatus] =
        storeAfter (-1)
          ([CSEvent.csWrite wsExit1.exitStatus] ++ [CSEvent.csRead]) :=
  exit_code_query_idempotent wsExit1
    [CSEvent.csWrite wsExit1.exitStatus] [CSEvent.csRead]
    (by decide) (by decide) (by decide)

/-- C9: a non-nil writer whose dynamic kind is not nilable (e.g. a
struct value implementing the writer interface) makes Start panic,
because `reflect.ValueOf(writer).IsNil()` is evaluated unconditionally
on every non-nil writer and panics on such kinds. -/
theorem non_nilable_writer_panics
    (cmd : Cmd) (ow ew : GoWriter) (a : Bool) (k : GoKind) (z : Bool)
    (hk : k.nilable = false)
    (how : useSink ow = Except.ok a) :
    Start cmd (some { kind := k, valIsNil := z }) ew = Except.error ()
    ∧ Start cmd ow (some { kind := k, valIsNil := z }) = Except.error () := by
  have h1 : useSink (some { kind := k, valIsNil := z }) = Except.error () := by
    simp [useSink, hk]
  constructor
  · simp [Start, h1]
  · simp [Start, h1, how]

/-- Witness for C9 with a struct-kind writer value. -/
theorem non_nilable_writer_panics_witness :
    Start cmdOk (some { kind := GoKind.structK, valIsNil := false }) none =
      Except.error ()
    ∧ Start cmdOk none (some { kind := GoKind.structK, valIsNil := false }) =
        Except.error () :=
  non_nilable_writer_panics cmdOk none none false GoKind.structK false
    rfl rfl

/-- C10: when the process is terminated by a signal, the platform exit
status the watcher stores is -1, equal to the sentinel: the watcher's
write is `writeExit (-1)`, and any history of queries around such a
write returns -1 throughout — indistinguishable from a process that has
not yet exited. -/
theorem signal_termination_stores_sentinel
    (ws : WaitStatus) (h : ws.exited = false) :
    ws.exitStatus = -1
    ∧ (∀ s : Session, s.command.waitResult = some ws →
        MicroOp.writeExit (-1) ∈ monitorForExit s)
    ∧ ∀ es : List CSEvent,
        (∀ e ∈ es, e = CSEvent.csRead ∨ e = CSEvent.csWrite ws.exitStatus) →
        storeAfter (-1) es = -1 := by
  have hx : ws.exitStatus = -1 := by simp [WaitStatus.exitStatus, h]
  refine ⟨hx, ?_, ?_⟩
  · intro s hs
    simp [monitorForExit, hs, hx]
  · intro es hes
    rw [storeAfter_of_valid ws.exitStatus es hes, hx]
    simp

/-- A raw wait status for a process killed by signal 9 (status word 9,
not a normal exit). -/
def wsKilled : WaitStatus := { status := 9 }

/-- A started session whose process was killed by a signal. -/
def sessKilled : Session :=
  { command :=
      { stdout := some Dest.bufferOnly, stderr := some Dest.bufferOnly,
        startResult := none, waitResult := some wsKilled }
    out := []
    err := []
    exitCode := -1 }

/-- Witness for C10 at a SIGKILLed process. -/
theorem signal_termination_stores_sentinel_witness :
    wsKilled.exitStatus = -1
    ∧ (MicroOp.writeExit (-1) ∈ monitorForExit sessKilled)
    ∧ storeAfter (-1)
        [CSEvent.csRead, CSEvent.csWrite wsKilled.exitStatus] = -1 :=
  ⟨(signal_termination_stores_sentinel wsKilled (by decide)).1,
   (signal_termination_stores_sentinel wsKilled (by decide)).2.1
     sessKilled rfl,
   (signal_termination_stores_sentinel wsKilled (by decide)).2.2
     [CSEvent.csRead, CSEvent.csWrite wsKilled.exitStatus] (by decide)⟩

/-- A started session whose wait call failed: no process state was
recorded. -/
def sessWaitFail : Session :=
  { command :=
      { stdout := some Dest.bufferOnly, stderr := some Dest.bufferOnly,
        startResult := none, waitResult := none }
    out := []
    err := []
    exitCode := -1 }

/-- C4 counterexample: on a concrete session whose wait call failed with
no process state recorded, the watcher does not continue silently — it
panics (dereferencing the missing process state), contradicting the
claim that there is no panic in the wait-failure case. -/
theorem wait_failure_panics_cex :
    runMicro { locked := false, sess := sessWaitFail }
      (monitorForExit sessWaitFail) = RunResult.panicked := by
  decide

/-- C4 amended: when the wait call fails after a successful start (no
process state recorded), the failure is not propagated to any caller and
the exit-code store is never written, so it retains the sentinel -1; but
instead of continuing silently, the watcher panics dereferencing the
missing process state (while holding the lock, before any store
access). -/
theorem wait_failure_unsurfaced
    (s : Session) (h : s.command.waitResult = none) :
    runMicro { locked := false, sess := s } (monitorForExit s) =
      RunResult.panicked
    ∧ (∀ v, MicroOp.writeExit v ∉ monitorForExit s)
    ∧ (monitorForExit s).countP MicroOp.isWriteOp = 0 := by
  refine ⟨?_, ?_, ?_⟩
  · simp [monitorForExit, h, runMicro]
  · intro v
    simp [monitorForExit, h]
  · simp [monitorForExit, h, List.countP_cons, MicroOp.isWriteOp]

/-- Witness for the amended C4 at the concrete failed-wait session. -/
theorem wait_failure_unsurfaced_witness :
    runMicro { locked := false, sess := sessWaitFail }
      (monitorForExit sessWaitFail) = RunResult.panicked
    ∧ (∀ v, MicroOp.writeExit v ∉ monitorForExit sessWaitFail)
    ∧ (monitorForExit sessWaitFail).countP MicroOp.isWriteOp = 0 :=
  wait_failure_unsurfaced sessWaitFail rfl

end Gexec
